import Mathlib

/-!
Verification of `pkg/kv/awskms/awskms.go` (bank-vaults): a decorator that
wraps an inner key-value store (`kv.Service`) with transparent envelope
encryption through the AWS KMS client.

Modelling conventions:
* Byte sequences (`[]byte`) are modelled as lists of characters (`Bytes`);
  the Go `string`/`[]byte` conversions are UTF-8 (de)serialisations and are
  modelled as the identity on the character sequence.
* Errors from `emperror.dev/errors` are modelled by the inductive `Err`:
  `errors.Errorf` builds a base error from its formatted message, and
  `errors.WrapIf err msg` (always called with a non-nil `err` here) wraps.
* Stateful collaborators become explicit state passing: the inner store is a
  pair of functions over an abstract state type `σ`; the KMS client is a pair
  of functions on the request records built by the source.
-/

/-- A `[]byte` value, modelled as a list of characters (see module comment). -/
abbrev Bytes := List Char

/-- Errors as produced by `emperror.dev/errors`: a base message
(`errors.Errorf`) or a wrapping of an inner error with a context message
(`errors.WrapIf`). -/
inductive Err where
  | base : String → Err
  | wrap : String → Err → Err
deriving DecidableEq, Repr

namespace aws

/-- `aws.String` from the SDK: lifts a string to a `*string` (modelled as
`Option`); named `StringPtr` here so it does not shadow the `String` type. -/
def StringPtr (s : String) : Option String := some s

/-- `aws.StringMap`: converts a `map[string]string` into a `map[string]*string`
whose values are all non-nil pointers. -/
def StringMap (m : List (String × String)) : List (String × Option String) :=
  m.map fun p => (p.1, some p.2)

end aws

/-- `unicode.IsSpace` from the Go standard library: the Latin-1 whitespace
characters and the Unicode `White_Space` code points outside Latin-1. -/
def goIsSpace (c : Char) : Bool :=
  let n := c.toNat
  n = 9 || n = 10 || n = 11 || n = 12 || n = 13 || n = 32 ||
  n = 0x85 || n = 0xA0 ||
  n = 0x1680 || (0x2000 ≤ n && n ≤ 0x200A) ||
  n = 0x2028 || n = 0x2029 || n = 0x202F || n = 0x205F || n = 0x3000

/-- `strings.TrimSpace` from the Go standard library: drops every leading and
trailing character satisfying `unicode.IsSpace`. -/
def trimSpace (s : Bytes) : Bytes :=
  ((s.dropWhile goIsSpace).reverse.dropWhile goIsSpace).reverse

namespace kv

/-- Modelled from the spec: the inner key-value store capability `kv.Service`
(its Go definition lives outside this file): `Get(key) → value-or-error` and
`Set(key, value) → success-or-error`, made explicit over a state type `σ`.
`SetFn` returns the (possibly unchanged) state together with an optional
error, so a failing inner store may or may not have mutated its state. -/
structure Service (σ : Type) where
  GetFn : σ → String → Except Err Bytes
  SetFn : σ → String → Bytes → Option Err × σ

end kv

/-- `kms.DecryptInput` (only the fields the source sets). -/
structure DecryptInput where
  CiphertextBlob : Bytes
  EncryptionContext : List (String × Option String)
  GrantTokens : List (Option String)
deriving DecidableEq, Repr

/-- `kms.DecryptOutput` (only the field the source reads). -/
structure DecryptOutput where
  Plaintext : Bytes
deriving DecidableEq, Repr

/-- `kms.EncryptInput` (only the fields the source sets). -/
structure EncryptInput where
  KeyId : Option String
  Plaintext : Bytes
  EncryptionContext : List (String × Option String)
  GrantTokens : List (Option String)
deriving DecidableEq, Repr

/-- `kms.EncryptOutput` (only the field the source reads). -/
structure EncryptOutput where
  CiphertextBlob : Bytes
deriving DecidableEq, Repr

namespace kms

/-- The remote KMS client `*kms.KMS`, modelled by the behaviour of its two
operations used by the source. -/
structure KMS where
  Decrypt : DecryptInput → Except Err DecryptOutput
  Encrypt : EncryptInput → Except Err EncryptOutput

end kms

/-- `session.Session`, modelled by the KMS client behaviour that
`kms.New(sess)` yields for it. -/
structure Session where
  kmsClient : kms.KMS

namespace kms

/-- `kms.New`: builds the KMS client from the session. -/
def New (sess : Session) : KMS := sess.kmsClient

end kms

/-- `SseAES256` is an algorithm that can be used for Server-Side Encryption in
AWS S3 buckets. -/
def SseAES256 : String := "AES256"

/-- `SseKMS` is an algorithm that can be used for Server-Side Encryption in
AWS S3 buckets. -/
def SseKMS : String := "aws:kms"

/-- The `awsKMS` struct: inner store, KMS client, key identifier and
encryption context. -/
structure awsKMS (σ : Type) where
  store : kv.Service σ
  kmsService : kms.KMS
  kmsID : String
  encryptionContext : List (String × Option String)

/-- The single-quote character (code point 39), used by the format string of
the construction-time error message. -/
def squote : String := String.singleton (Char.ofNat 39)

/-- A string surrounded by single quotes, as the format fragment around the
invalid key identifier renders it. -/
def quoted (s : String) : String := squote ++ s ++ squote

/-- `NewWithSession` creates a new kv.Service encrypted by AWS KMS with an
existing AWS Session. An empty `kmsID` is rejected with a formatted
`errors.Errorf` message interpolating the identifier between single quotes. -/
def NewWithSession {σ : Type} (sess : Session) (store : kv.Service σ)
    (kmsID : String) (encryptionContext : List (String × String)) :
    Except Err (awsKMS σ) :=
  if kmsID = "" then
    .error (.base ("invalid kmsID specified: " ++ quoted kmsID))
  else
    .ok { store := store
          kmsService := kms.New sess
          kmsID := kmsID
          encryptionContext := aws.StringMap encryptionContext }

/-- `awsKMS.decrypt`: one `Decrypt` call on the request record built by the
source, wrapping failures and trimming whitespace from the plaintext
(`strings.TrimSpace(string(out.Plaintext))`, re-encoded with `[]byte`). -/
def awsKMS.decrypt {σ : Type} (a : awsKMS σ) (cipherText : Bytes) :
    Except Err Bytes :=
  match a.kmsService.Decrypt
      { CiphertextBlob := cipherText
        EncryptionContext := a.encryptionContext
        GrantTokens := [] } with
  | .error err => .error (.wrap "failed to decrypt with KMS client" err)
  | .ok out => .ok (trimSpace out.Plaintext)

/-- `awsKMS.Get`: inner `store.Get`, wrapping its failure, then `decrypt`. -/
def awsKMS.Get {σ : Type} (a : awsKMS σ) (s : σ) (key : String) :
    Except Err Bytes :=
  match a.store.GetFn s key with
  | .error err => .error (.wrap "failed to get data for KMS client" err)
  | .ok cipherText => a.decrypt cipherText

/-- `awsKMS.encrypt`: one `Encrypt` call on the request record built by the
source, wrapping failures and returning `out.CiphertextBlob`. -/
def awsKMS.encrypt {σ : Type} (a : awsKMS σ) (plainText : Bytes) :
    Except Err Bytes :=
  match a.kmsService.Encrypt
      { KeyId := aws.StringPtr a.kmsID
        Plaintext := plainText
        EncryptionContext := a.encryptionContext
        GrantTokens := [] } with
  | .error err => .error (.wrap "failed to encrypt with KMS client" err)
  | .ok out => .ok out.CiphertextBlob

/-- `awsKMS.Set`: `encrypt` the value; on failure return the error with the
state untouched, otherwise delegate to the inner `store.Set` unchanged. -/
def awsKMS.Set {σ : Type} (a : awsKMS σ) (s : σ) (key : String) (val : Bytes) :
    Option Err × σ :=
  match a.encrypt val with
  | .error err => (some err, s)
  | .ok cipherText => a.store.SetFn s key cipherText

/-! ## Concrete collaborators for witnesses -/

/-- An in-memory association-list store: `Set` prepends, `Get` looks up. -/
def memStore : kv.Service (List (String × Bytes)) where
  GetFn := fun s k =>
    match s.lookup k with
    | some v => .ok v
    | none => .error (.base "key not found")
  SetFn := fun s k v => (none, (k, v) :: s)

/-- A test double for the remote service that reverses the byte sequence on
encrypt and reverses it back on decrypt. -/
def fakeKMS : kms.KMS where
  Decrypt := fun i => .ok ⟨i.CiphertextBlob.reverse⟩
  Encrypt := fun i => .ok ⟨i.Plaintext.reverse⟩

/-- A remote service double that behaves like `fakeKMS` on requests carrying
the empty encryption context, no grant tokens and (for encrypt) the test key
identifier, and rejects every other request. -/
def strictKMS : kms.KMS where
  Decrypt := fun i =>
    if i.EncryptionContext = [] ∧ i.GrantTokens = [] then
      fakeKMS.Decrypt i
    else .error (.base "rejected")
  Encrypt := fun i =>
    if i.KeyId = some "alias/test-key" ∧ i.EncryptionContext = [] ∧
        i.GrantTokens = [] then
      fakeKMS.Encrypt i
    else .error (.base "rejected")

/-- A remote service double that behaves like `fakeKMS` exactly on decrypt
requests whose ciphertext blob is the reversed bytes of `"v"`, whatever their
other fields, and rejects decrypting any other blob. -/
def blobKMS : kms.KMS where
  Decrypt := fun i =>
    if i.CiphertextBlob = ("v".toList).reverse then fakeKMS.Decrypt i
    else .error (.base "other blob")
  Encrypt := fakeKMS.Encrypt

/-- A remote service double whose calls always fail. -/
def failKMS : kms.KMS where
  Decrypt := fun _ => .error (.base "kms unavailable")
  Encrypt := fun _ => .error (.base "kms unavailable")

/-- An inner store double whose calls always fail (and never mutate). -/
def failStore : kv.Service Unit where
  GetFn := fun _ _ => .error (.base "store get failure")
  SetFn := fun s _ _ => (some (.base "store set failure"), s)

/-- A session whose KMS client is `fakeKMS`. -/
def exSession : Session := ⟨fakeKMS⟩

/-- A decorator over the in-memory store and `fakeKMS`. -/
def exA : awsKMS (List (String × Bytes)) where
  store := memStore
  kmsService := fakeKMS
  kmsID := "alias/test-key"
  encryptionContext := aws.StringMap []

/-- A decorator over the always-failing store and `fakeKMS`. -/
def exFailStoreA : awsKMS Unit where
  store := failStore
  kmsService := fakeKMS
  kmsID := "alias/test-key"
  encryptionContext := aws.StringMap []

/-- A decorator over the in-memory store and the always-failing `failKMS`. -/
def exFailKMSA : awsKMS (List (String × Bytes)) where
  store := memStore
  kmsService := failKMS
  kmsID := "alias/test-key"
  encryptionContext := aws.StringMap []

/-! ## Claims -/

/-- C1: if the remote service's Decrypt inverts Encrypt for the configured key
identifier and encryption context, and the inner store returns on `Get k` the
value last written by `Set k`, then `Get k` after `Set k v` succeeds and
returns the whitespace-trimmed `v`. -/
theorem C1_round_trip {σ : Type} (a : awsKMS σ) (s s' : σ) (k : String)
    (v : Bytes) (out : EncryptOutput)
    (henc : a.kmsService.Encrypt
      ⟨aws.StringPtr a.kmsID, v, a.encryptionContext, []⟩ = .ok out)
    (hdec : a.kmsService.Decrypt
      ⟨out.CiphertextBlob, a.encryptionContext, []⟩ = .ok ⟨v⟩)
    (hput : a.store.SetFn s k out.CiphertextBlob = (none, s'))
    (hget : a.store.GetFn s' k = .ok out.CiphertextBlob) :
    a.Set s k v = (none, s') ∧ a.Get s' k = .ok (trimSpace v) := by
  constructor
  · simp [awsKMS.Set, awsKMS.encrypt, henc, hput]
  · simp [awsKMS.Get, hget, awsKMS.decrypt, hdec]

/-- C1 witness: the example scenario of the spec, on the in-memory store and
the reversing remote-service double: `Set "password" "secret "` followed by
`Get "password"` returns `"secret"` with the trailing space trimmed. -/
theorem C1_round_trip_witness :
    awsKMS.Set exA [] "password" ("secret ".toList) =
      (none, [("password", ("secret ".toList).reverse)])
    ∧ awsKMS.Get exA [("password", ("secret ".toList).reverse)] "password" =
      .ok ("secret".toList) :=
  C1_round_trip exA [] [("password", ("secret ".toList).reverse)] "password"
    ("secret ".toList) ⟨("secret ".toList).reverse⟩ rfl (by simp [exA, fakeKMS])
    rfl rfl

/-- C2: constructing with an empty key identifier fails with a configuration
error interpolating the (empty) invalid identifier and yields no instance;
constructing with any non-empty key identifier succeeds with the expected
instance. -/
theorem C2_construction_validation {σ : Type} (sess : Session)
    (store : kv.Service σ) (kmsID : String) (ec : List (String × String)) :
    (kmsID = "" →
      NewWithSession sess store kmsID ec =
        .error (.base ("invalid kmsID specified: " ++ quoted kmsID)))
    ∧ (kmsID ≠ "" →
      NewWithSession sess store kmsID ec =
        .ok { store := store
              kmsService := kms.New sess
              kmsID := kmsID
              encryptionContext := aws.StringMap ec }) := by
  constructor
  · intro h; simp [NewWithSession, h]
  · intro h; simp [NewWithSession, h]

/-- C2 witness: the empty identifier is rejected with the configuration
error, while `"alias/test-key"` is accepted. -/
theorem C2_construction_validation_witness :
    NewWithSession exSession memStore "" [] =
      .error (.base ("invalid kmsID specified: " ++ quoted ""))
    ∧ NewWithSession exSession memStore "alias/test-key" [] =
      .ok { store := memStore
            kmsService := kms.New exSession
            kmsID := "alias/test-key"
            encryptionContext := aws.StringMap [] } :=
  ⟨(C2_construction_validation exSession memStore "" []).1 rfl,
   (C2_construction_validation exSession memStore "alias/test-key" []).2
     (by decide)⟩

/-- C3: when the remote encrypt call fails, `Set` returns the wrapped error
and leaves the state unchanged; moreover the result is the same whatever the
inner store is, so the inner store's `Set` is never invoked. -/
theorem C3_encrypt_failure_isolation {σ : Type} (a : awsKMS σ)
    (st : kv.Service σ) (s : σ) (k : String) (v : Bytes) (e : Err)
    (henc : a.kmsService.Encrypt
      ⟨aws.StringPtr a.kmsID, v, a.encryptionContext, []⟩ = .error e) :
    a.Set s k v = (some (.wrap "failed to encrypt with KMS client" e), s)
    ∧ awsKMS.Set { a with store := st } s k v =
      (some (.wrap "failed to encrypt with KMS client" e), s) := by
  constructor
  · simp [awsKMS.Set, awsKMS.encrypt, henc]
  · simp [awsKMS.Set, awsKMS.encrypt, henc]

/-- C3 witness: with the always-failing remote service, `Set` fails with the
wrapped encrypt error and unchanged state, both over the in-memory store and
over the always-failing store swapped in. -/
theorem C3_encrypt_failure_isolation_witness :
    awsKMS.Set exFailKMSA [] "k" ("v".toList) =
      (some (.wrap "failed to encrypt with KMS client" (.base "kms unavailable")), [])
    ∧ awsKMS.Set { exFailKMSA with store := memStore } [] "k" ("v".toList) =
      (some (.wrap "failed to encrypt with KMS client" (.base "kms unavailable")), []) :=
  C3_encrypt_failure_isolation exFailKMSA memStore [] "k" ("v".toList)
    (.base "kms unavailable") rfl

/-- C4: when the inner store's `Get` fails, the decorator's `Get` returns the
wrapped failure and no value, and the result is the same whatever the KMS
client is, so no remote decrypt call is attempted. -/
theorem C4_get_failure_isolation {σ : Type} (a : awsKMS σ) (K : kms.KMS)
    (s : σ) (k : String) (e : Err)
    (hget : a.store.GetFn s k = .error e) :
    a.Get s k = .error (.wrap "failed to get data for KMS client" e)
    ∧ awsKMS.Get { a with kmsService := K } s k =
      .error (.wrap "failed to get data for KMS client" e) := by
  constructor
  · simp [awsKMS.Get, hget]
  · simp [awsKMS.Get, hget]

/-- C4 witness: with the always-failing store, `Get` fails with the wrapped
inner-store error, identically under `fakeKMS` and under the always-failing
`failKMS` swapped in. -/
theorem C4_get_failure_isolation_witness :
    awsKMS.Get exFailStoreA () "k" =
      .error (.wrap "failed to get data for KMS client" (.base "store get failure"))
    ∧ awsKMS.Get { exFailStoreA with kmsService := failKMS } () "k" =
      .error (.wrap "failed to get data for KMS client" (.base "store get failure")) :=
  C4_get_failure_isolation exFailStoreA failKMS () "k" (.base "store get failure")
    rfl

/-- C5: when the inner `Get` and the remote decrypt both succeed, the
decorator's `Get` returns the decrypted byte sequence with leading and
trailing whitespace trimmed. -/
theorem C5_trimmed_plaintext {σ : Type} (a : awsKMS σ) (s : σ) (k : String)
    (ct : Bytes) (out : DecryptOutput)
    (hget : a.store.GetFn s k = .ok ct)
    (hdec : a.kmsService.Decrypt ⟨ct, a.encryptionContext, []⟩ = .ok out) :
    a.Get s k = .ok (trimSpace out.Plaintext) := by
  simp [awsKMS.Get, hget, awsKMS.decrypt, hdec]

/-- C5 witness: a stored ciphertext decrypting to `"\t secret \n"` is
returned as `"secret"`, whitespace trimmed on both ends. -/
theorem C5_trimmed_plaintext_witness :
    awsKMS.Get exA [("k", ("\t secret \n".toList).reverse)] "k" =
      .ok ("secret".toList) :=
  C5_trimmed_plaintext exA [("k", ("\t secret \n".toList).reverse)] "k"
    (("\t secret \n".toList).reverse) ⟨"\t secret \n".toList⟩ rfl
    (by simp [exA, fakeKMS])

/-- C6 counterexample: the wrapping messages written by the code say
`KMS client`, not `key-management client`: at a concrete failing inner `Get`,
the error wrapper is `"failed to get data for KMS client"`, which differs
from the string the claim requires exactly. -/
theorem C6_counterexample :
    awsKMS.Get exFailStoreA () "k" =
      .error (.wrap "failed to get data for KMS client" (.base "store get failure"))
    ∧ Err.wrap "failed to get data for KMS client" (.base "store get failure") ≠
      Err.wrap "failed to get data for key-management client"
        (.base "store get failure") :=
  ⟨rfl, by decide⟩

/-- C6 amended: each failing stage wraps the underlying failure with its own
stage-identifying context — `"failed to get data for KMS client"` for an
inner-store `Get` failure, `"failed to decrypt with KMS client"` for a remote
decrypt failure, `"failed to encrypt with KMS client"` for a remote encrypt
failure — and the three messages are pairwise distinct. -/
theorem C6_stage_identifying_wrappers {σ : Type} (a : awsKMS σ) (s : σ)
    (k : String) (v ct : Bytes) (e : Err) :
    (a.store.GetFn s k = .error e →
      a.Get s k = .error (.wrap "failed to get data for KMS client" e))
    ∧ (a.store.GetFn s k = .ok ct →
       a.kmsService.Decrypt ⟨ct, a.encryptionContext, []⟩ = .error e →
       a.Get s k = .error (.wrap "failed to decrypt with KMS client" e))
    ∧ (a.kmsService.Encrypt
        ⟨aws.StringPtr a.kmsID, v, a.encryptionContext, []⟩ = .error e →
       a.Set s k v = (some (.wrap "failed to encrypt with KMS client" e), s))
    ∧ ("failed to get data for KMS client" ≠ "failed to decrypt with KMS client"
       ∧ "failed to get data for KMS client" ≠ "failed to encrypt with KMS client"
       ∧ "failed to decrypt with KMS client" ≠ "failed to encrypt with KMS client") := by
  refine ⟨fun h => ?_, fun h1 h2 => ?_, fun h => ?_, by decide, by decide, by decide⟩
  · simp [awsKMS.Get, h]
  · simp [awsKMS.Get, h1, awsKMS.decrypt, h2]
  · simp [awsKMS.Set, awsKMS.encrypt, h]

/-- C6 witness: the three stages observed on concrete instances — failing
inner `Get`, failing remote decrypt over the in-memory store, failing remote
encrypt — each produce their own wrapper message. -/
theorem C6_stage_identifying_wrappers_witness :
    awsKMS.Get exFailStoreA () "p" =
      .error (.wrap "failed to get data for KMS client" (.base "store get failure"))
    ∧ awsKMS.Get exFailKMSA [("p", "c".toList)] "p" =
      .error (.wrap "failed to decrypt with KMS client" (.base "kms unavailable"))
    ∧ awsKMS.Set exFailKMSA [] "p" ("v".toList) =
      (some (.wrap "failed to encrypt with KMS client" (.base "kms unavailable")), []) :=
  ⟨(C6_stage_identifying_wrappers exFailStoreA () "p" [] []
      (.base "store get failure")).1 rfl,
   (C6_stage_identifying_wrappers exFailKMSA [("p", "c".toList)] "p" []
      ("c".toList) (.base "kms unavailable")).2.1 rfl rfl,
   (C6_stage_identifying_wrappers exFailKMSA [] "p" ("v".toList) []
      (.base "kms unavailable")).2.2.1 rfl⟩

/-- C7: when the remote encrypt call succeeds, `Set` returns exactly the
result of the inner store's `Set` on the ciphertext — failures propagate
unchanged, with no additional wrapping, and success yields success. -/
theorem C7_set_delegates_unwrapped {σ : Type} (a : awsKMS σ) (s : σ)
    (k : String) (v : Bytes) (out : EncryptOutput)
    (henc : a.kmsService.Encrypt
      ⟨aws.StringPtr a.kmsID, v, a.encryptionContext, []⟩ = .ok out) :
    a.Set s k v = a.store.SetFn s k out.CiphertextBlob := by
  simp [awsKMS.Set, awsKMS.encrypt, henc]

/-- C7 witness: over the always-failing store (with a working remote
service), `Set` surfaces the inner store's own error with no wrapper. -/
theorem C7_set_delegates_unwrapped_witness :
    awsKMS.Set exFailStoreA () "k" ("v".toList) =
      (some (.base "store set failure"), ()) :=
  C7_set_delegates_unwrapped exFailStoreA () "k" ("v".toList)
    ⟨("v".toList).reverse⟩ rfl

/-- C8: the requests issued to the remote service depend only on its
behaviour at requests carrying the configured encryption context unchanged
and an empty grant-token list — and, for encrypt, the configured key
identifier: two clients agreeing on such requests make `decrypt` and
`encrypt` agree. -/
theorem C8_request_shape {σ : Type} (a : awsKMS σ) (ct pt : Bytes)
    (F G : kms.KMS)
    (hd : ∀ i : DecryptInput, i.EncryptionContext = a.encryptionContext →
      i.GrantTokens = [] → F.Decrypt i = G.Decrypt i)
    (he : ∀ i : EncryptInput, i.KeyId = aws.StringPtr a.kmsID →
      i.EncryptionContext = a.encryptionContext → i.GrantTokens = [] →
      F.Encrypt i = G.Encrypt i) :
    awsKMS.decrypt { a with kmsService := F } ct =
      awsKMS.decrypt { a with kmsService := G } ct
    ∧ awsKMS.encrypt { a with kmsService := F } pt =
      awsKMS.encrypt { a with kmsService := G } pt := by
  constructor
  · simp only [awsKMS.decrypt]
    rw [hd _ rfl rfl]
  · simp only [awsKMS.encrypt]
    rw [he _ rfl rfl rfl]

/-- C8 witness: `fakeKMS` and `strictKMS` — which rejects any request whose
grant tokens are non-empty, whose context is not the configured one, or (for
encrypt) whose key identifier is not the configured one — are
indistinguishable through the decorator's `decrypt` and `encrypt`. -/
theorem C8_request_shape_witness :
    awsKMS.decrypt { exA with kmsService := fakeKMS } ("c".toList) =
      awsKMS.decrypt { exA with kmsService := strictKMS } ("c".toList)
    ∧ awsKMS.encrypt { exA with kmsService := fakeKMS } ("p".toList) =
      awsKMS.encrypt { exA with kmsService := strictKMS } ("p".toList) :=
  C8_request_shape exA ("c".toList) ("p".toList) fakeKMS strictKMS
    (fun i h1 h2 => by simp [strictKMS, h2, h1, exA, aws.StringMap])
    (fun i h0 h1 h2 => by
      simp [strictKMS, h0, h2, h1, exA, aws.StringMap, aws.StringPtr])

/-- C9: ciphertext is passed through verbatim — when encrypt succeeds, `Set`
stores exactly the returned ciphertext (its result is the inner `Set` at that
exact byte sequence, and so depends only on the inner store's behaviour
there), and when the inner `Get` succeeds, `Get` submits to decrypt exactly
the retrieved byte sequence (its result depends only on the client's
behaviour at that ciphertext). -/
theorem C9_ciphertext_verbatim {σ : Type} (a : awsKMS σ)
    (st1 st2 : kv.Service σ) (F G : kms.KMS) (s : σ) (k : String)
    (v ct : Bytes) (out : EncryptOutput) :
    (a.kmsService.Encrypt
        ⟨aws.StringPtr a.kmsID, v, a.encryptionContext, []⟩ = .ok out →
      a.Set s k v = a.store.SetFn s k out.CiphertextBlob
      ∧ (st1.SetFn s k out.CiphertextBlob = st2.SetFn s k out.CiphertextBlob →
         awsKMS.Set { a with store := st1 } s k v =
           awsKMS.Set { a with store := st2 } s k v))
    ∧ (a.store.GetFn s k = .ok ct →
       (∀ i : DecryptInput, i.CiphertextBlob = ct → F.Decrypt i = G.Decrypt i) →
       awsKMS.Get { a with kmsService := F } s k =
         awsKMS.Get { a with kmsService := G } s k) := by
  constructor
  · intro henc
    constructor
    · simp [awsKMS.Set, awsKMS.encrypt, henc]
    · intro hsame
      simp [awsKMS.Set, awsKMS.encrypt, henc, hsame]
  · intro hget hsame
    simp only [awsKMS.Get, hget]
    simp only [awsKMS.decrypt]
    rw [hsame _ rfl]

/-- C9 witness: on the in-memory store, `Set "k" "v"` stores exactly the
reversed bytes produced by the remote-service double; two stores agreeing at
that ciphertext, and two clients agreeing at the stored ciphertext, are
indistinguishable through `Set` and `Get`. -/
theorem C9_ciphertext_verbatim_witness :
    (awsKMS.Set exA [] "k" ("v".toList) =
        (none, [("k", ("v".toList).reverse)])
      ∧ awsKMS.Set { exA with store := memStore } [] "k" ("v".toList) =
          awsKMS.Set { exA with store := memStore } [] "k" ("v".toList))
    ∧ awsKMS.Get { exA with kmsService := fakeKMS }
        [("k", ("v".toList).reverse)] "k" =
      awsKMS.Get { exA with kmsService := blobKMS }
        [("k", ("v".toList).reverse)] "k" :=
  ⟨⟨(((C9_ciphertext_verbatim exA memStore memStore fakeKMS blobKMS [] "k"
      ("v".toList) (("v".toList).reverse) ⟨("v".toList).reverse⟩).1) rfl).1,
    (((C9_ciphertext_verbatim exA memStore memStore fakeKMS blobKMS [] "k"
      ("v".toList) (("v".toList).reverse) ⟨("v".toList).reverse⟩).1) rfl).2 rfl⟩,
   ((C9_ciphertext_verbatim exA memStore memStore fakeKMS blobKMS
      [("k", ("v".toList).reverse)] "k" ("v".toList) (("v".toList).reverse)
      ⟨("v".toList).reverse⟩).2) rfl
     (fun i h => by simp [blobKMS, h])⟩

/-- C10: the decorator validates no key — for every key, the empty string
included, `Get` and `Set` consult the inner store at exactly that key (their
results depend only on the store's behaviour at it), and a successful lookup
at that key is decrypted and returned rather than rejected. -/
theorem C10_no_key_validation {σ : Type} (a : awsKMS σ)
    (st1 st2 : kv.Service σ) (s : σ) (k : String) (v ct : Bytes)
    (out : DecryptOutput) :
    (st1.GetFn s k = st2.GetFn s k →
      awsKMS.Get { a with store := st1 } s k =
        awsKMS.Get { a with store := st2 } s k)
    ∧ ((∀ b, st1.SetFn s k b = st2.SetFn s k b) →
      awsKMS.Set { a with store := st1 } s k v =
        awsKMS.Set { a with store := st2 } s k v)
    ∧ (a.store.GetFn s k = .ok ct →
       a.kmsService.Decrypt ⟨ct, a.encryptionContext, []⟩ = .ok out →
       a.Get s k = .ok (trimSpace out.Plaintext)) := by
  refine ⟨fun h => ?_, fun h => ?_, fun h1 h2 => ?_⟩
  · simp only [awsKMS.Get, awsKMS.decrypt, h]
  · simp only [awsKMS.Set, awsKMS.encrypt]
    cases a.kmsService.Encrypt
        { KeyId := aws.StringPtr a.kmsID
          Plaintext := v
          EncryptionContext := a.encryptionContext
          GrantTokens := [] } with
    | error e => rfl
    | ok o => exact h o.CiphertextBlob
  · simp [awsKMS.Get, h1, awsKMS.decrypt, h2]

/-- C10 witness: at the empty key, the in-memory store is consulted at `""`
and a stored value is decrypted and returned — the empty key is not
rejected. -/
theorem C10_no_key_validation_witness :
    (awsKMS.Get { exA with store := memStore } [("", ("w ".toList).reverse)] "" =
       awsKMS.Get { exA with store := memStore } [("", ("w ".toList).reverse)] "")
    ∧ (awsKMS.Set { exA with store := memStore } [] "" ("w ".toList) =
       awsKMS.Set { exA with store := memStore } [] "" ("w ".toList))
    ∧ awsKMS.Get exA [("", ("w ".toList).reverse)] "" = .ok ("w".toList) :=
  ⟨(C10_no_key_validation exA memStore memStore [("", ("w ".toList).reverse)]
      "" ("w ".toList) (("w ".toList).reverse) ⟨"w ".toList⟩).1 rfl,
   (C10_no_key_validation exA memStore memStore [] "" ("w ".toList)
      (("w ".toList).reverse) ⟨"w ".toList⟩).2.1 (fun _ => rfl),
   (C10_no_key_validation exA memStore memStore [("", ("w ".toList).reverse)]
      "" ("w ".toList) (("w ".toList).reverse) ⟨"w ".toList⟩).2.2 rfl
     (by simp [exA, fakeKMS])⟩
